import Mathlib

/-!
# Verification of the portfolio content bootstrap and read API

Shallow embedding of the backend of `praveenswork/simple-portfolio`:
the schema initializer (`initDb` in `src/server.ts`) and the three read
endpoints (`src/api/index.ts` and `src/server.ts`, which register the same
three routes with the same bodies).

The relational store is modelled as in-memory lists of rows; each SQL
statement appearing in the source is embedded as a Lean function on that
model, following standard SQL/Postgres semantics for the constructs the
statements use (`CHECK` constraints with three-valued logic, `SERIAL` id
assignment, `ORDER BY id DESC`, integer input conversion of bound
parameters).
-/

/-- A row of the `posts` table (`CREATE TABLE posts` in `src/server.ts`):
`id SERIAL PRIMARY KEY`, `type TEXT CHECK(type IN ('thinking','doing'))`
(nullable), `title TEXT NOT NULL`, `description`/`content`/`tags TEXT`
(nullable), `date TEXT NOT NULL`. -/
structure Post where
  id : Int
  type : Option String
  title : String
  description : Option String
  content : Option String
  tags : Option String
  date : String
deriving DecidableEq, Repr

/-- A row of the `projects` table (`CREATE TABLE projects` in
`src/server.ts`). -/
structure Project where
  id : Int
  title : String
  description : Option String
  image_url : Option String
  project_url : Option String
  github_url : Option String
  tags : Option String
deriving DecidableEq, Repr

/-- The database state: the two relations, plus the next value of each
table's `SERIAL` id sequence. -/
structure DB where
  posts : List Post
  projects : List Project
  nextPostId : Int
  nextProjectId : Int
deriving DecidableEq, Repr

/-- A fresh empty store (both tables exist and are empty, sequences at 1). -/
def emptyDB : DB :=
  { posts := [], projects := [], nextPostId := 1, nextProjectId := 1 }

/-- The pooled store connection as seen by a request handler: `none` models
a broken connection (every query raises), `some db` a working store. -/
structure Store where
  conn : Option DB
deriving DecidableEq, Repr

/-- The ordering used by `ORDER BY id DESC`: row `a` comes before row `b`
when `b.id ≤ a.id`. -/
def postIdDesc (a b : Post) : Prop := b.id ≤ a.id

instance : DecidableRel postIdDesc := fun a b => inferInstanceAs (Decidable (b.id ≤ a.id))

instance : IsTotal Post postIdDesc := ⟨fun a b => le_total b.id a.id⟩

instance : IsTrans Post postIdDesc := ⟨fun _ _ _ hab hbc => le_trans hbc hab⟩

/-- `ORDER BY id DESC` on the `posts` table. -/
def sortPostsByIdDesc (rows : List Post) : List Post :=
  List.insertionSort postIdDesc rows

/-- The ordering used by `ORDER BY id DESC` on `projects`. -/
def projectIdDesc (a b : Project) : Prop := b.id ≤ a.id

instance : DecidableRel projectIdDesc := fun a b => inferInstanceAs (Decidable (b.id ≤ a.id))

/-- `ORDER BY id DESC` on the `projects` table. -/
def sortProjectsByIdDesc (rows : List Project) : List Project :=
  List.insertionSort projectIdDesc rows

/-- `SELECT * FROM posts WHERE type = $1 ORDER BY id DESC` with the text
parameter `$1 = t`: SQL `=` on a nullable text column matches only rows
whose `type` is non-NULL and equal to `t` (a NULL `type` compares as
unknown and is filtered out). -/
def selectPostsByType (db : DB) (t : String) : List Post :=
  sortPostsByIdDesc (db.posts.filter (fun p => p.type == some t))

/-- `SELECT * FROM posts ORDER BY id DESC`. -/
def selectAllPosts (db : DB) : List Post :=
  sortPostsByIdDesc db.posts

/-- `SELECT * FROM projects ORDER BY id DESC`. -/
def selectAllProjects (db : DB) : List Project :=
  sortProjectsByIdDesc db.projects

/-- Strip leading and trailing whitespace from a character list. -/
def trimWsChars (cs : List Char) : List Char :=
  ((cs.dropWhile (fun c => c.isWhitespace)).reverse.dropWhile (fun c => c.isWhitespace)).reverse

/-- Decimal value of a digit list. -/
def pgDigitsVal (cs : List Char) : Nat :=
  cs.foldl (fun acc c => acc * 10 + (c.toNat - 48)) 0

/-- Postgres integer input conversion (`int4in`) applied to the text value
bound for `$1` in `SELECT * FROM posts WHERE id = $1`: optional surrounding
whitespace, an optional sign, then one or more decimal digits; anything
else raises `invalid input syntax for type integer`. (The int4 range check
is elided; no claim depends on it.) -/
def pgParseInt (s : String) : Option Int :=
  let cs := trimWsChars s.data
  let signed : Int × List Char :=
    match cs with
    | '-' :: rest => (-1, rest)
    | '+' :: rest => (1, rest)
    | _ => (1, cs)
  if signed.2.isEmpty then none
  else if signed.2.all (fun c => c.isDigit) then
    some (signed.1 * (pgDigitsVal signed.2 : Nat))
  else none

/-- `SELECT * FROM posts WHERE id = $1` with `req.params.id` bound unparsed
as `$1`: the store first converts the text parameter to an integer
(raising on failure, modelled as `Except.error`), then returns the
matching rows. -/
def queryPostById (db : DB) (idStr : String) : Except Unit (List Post) :=
  match pgParseInt idStr with
  | none => Except.error ()
  | some n => Except.ok (db.posts.filter (fun p => p.id == n))

/-- JavaScript truthiness of an optional query-parameter string, as tested
by `if (type)` in the list-posts handler: absent (`undefined`) and the
empty string are falsy, every other string is truthy. -/
def truthy : Option String → Bool
  | none => false
  | some s => !(s == "")

/-- Response bodies the handlers produce: a row array, a single row object,
a project array, or an error object `{"error": msg}`. -/
inductive Body where
  | rows (rs : List Post)
  | post (p : Post)
  | projects (rs : List Project)
  | err (msg : String)
deriving DecidableEq, Repr

/-- An HTTP response: status code and JSON body. -/
structure Response where
  status : Nat
  body : Body
deriving DecidableEq, Repr

/-- Handler of `GET /api/posts` (`src/api/index.ts` lines 24–43,
`src/server.ts` lines 88–101): reads `req.query.type`; if truthy, runs the
filtered query, otherwise the unfiltered one; any query failure is caught
and answered with 500 `{"error":"Database error"}`. -/
def handleGetPosts (st : Store) (ty : Option String) : Response :=
  match st.conn with
  | none => { status := 500, body := Body.err "Database error" }
  | some db =>
    if truthy ty then
      { status := 200, body := Body.rows (selectPostsByType db (ty.getD "")) }
    else
      { status := 200, body := Body.rows (selectAllPosts db) }

/-- Handler of `GET /api/posts/:id` (`src/api/index.ts` lines 45–60,
`src/server.ts` lines 103–114): binds `req.params.id` unparsed; on a
non-empty result answers 200 with `rows[0]`, on an empty result 404
`{"error":"Post not found"}`, and on any query failure 500
`{"error":"Database error"}`. -/
def handleGetPostById (st : Store) (idStr : String) : Response :=
  match st.conn with
  | none => { status := 500, body := Body.err "Database error" }
  | some db =>
    match queryPostById db idStr with
    | Except.error _ => { status := 500, body := Body.err "Database error" }
    | Except.ok rows =>
      match rows with
      | [] => { status := 404, body := Body.err "Post not found" }
      | p :: _ => { status := 200, body := Body.post p }

/-- Handler of `GET /api/projects` (`src/api/index.ts` lines 62–70,
`src/server.ts` lines 116–123). -/
def handleGetProjects (st : Store) : Response :=
  match st.conn with
  | none => { status := 500, body := Body.err "Database error" }
  | some db => { status := 200, body := Body.projects (selectAllProjects db) }

/-- The values a row destined for `posts` carries at insert time (`id` is
assigned by the store's `SERIAL` sequence, not supplied). -/
structure PostInsert where
  type : Option String
  title : String
  description : Option String
  content : Option String
  tags : Option String
  date : String
deriving DecidableEq, Repr

/-- The `CHECK(type IN ('thinking','doing'))` constraint on `posts.type`,
with SQL three-valued logic: a constraint is violated only when its
expression evaluates to false, so a NULL `type` (for which `IN` yields
unknown) satisfies the constraint. -/
def typeCheckOk : Option String → Bool
  | none => true
  | some v => v == "thinking" || v == "doing"

/-- `INSERT INTO posts (type, title, description, content, tags, date)
VALUES (...)` for one row: the store assigns the next `SERIAL` id, rejects
the row if the `CHECK` constraint on `type` is violated, and otherwise
appends it. -/
def insertPost (db : DB) (r : PostInsert) : Except Unit DB :=
  if typeCheckOk r.type then
    Except.ok
      { db with
        posts := db.posts ++
          [{ id := db.nextPostId, type := r.type, title := r.title,
             description := r.description, content := r.content,
             tags := r.tags, date := r.date }],
        nextPostId := db.nextPostId + 1 }
  else
    Except.error ()

/-- First seeded post (`initDb` in `src/server.ts`), with the `SERIAL` id
it receives; `''` in the SQL literal is an escaped single quote and `\n`
inside a plain SQL string literal is a literal backslash-n. -/
def seedPost1 (i : Int) : Post :=
  { id := i
    type := some "thinking"
    title := "All I Need Is a Renaissance, Summer, and Success"
    description := some "Sitting with winter. Belief systems that don't transfer, rejections from all directions, and the refusal to borrow someone else's definition of success."
    content := some "# The Renaissance of Self\\n\\nWinter is a time for reflection. In this post, I explore the idea of building your own definition of success rather than borrowing one from society. \\n\\n### The Problem with Borrowed Success\\nWhen we aim for what others want, we lose our own voice. \\n\\n### Finding Your Summer\\nIt's about the internal warmth that keeps you going when the external world is cold."
    tags := some "philosophy, growth, mindset"
    date := "Feb 8, 2026" }

/-- Second seeded post (`initDb` in `src/server.ts`). -/
def seedPost2 (i : Int) : Post :=
  { id := i
    type := some "doing"
    title := "Why I'm Building This Notes Section"
    description := some "A meta-note on the purpose of this space—increasing focus, compounding ideas, and building in public."
    content := some "# Building in Public\\n\\nThe primary reason for building this notes section is simple: **increase focus and bandwidth toward research and growth**.\\n\\n### The Problem\\nIdeas loop endlessly in the mind. Questions remain unexamined. Connections between concepts stay invisible because they're never written down."
    tags := some "meta, growth, focus"
    date := "Feb 3, 2026" }

/-- The two-row seed `INSERT INTO posts ... VALUES (...), (...)`: `SERIAL`
assigns consecutive ids starting from the sequence value `i`. -/
def seedPostRows (i : Int) : List Post :=
  [seedPost1 i, seedPost2 (i + 1)]

/-- First seeded project (`initDb` in `src/server.ts`). -/
def seedProject1 (i : Int) : Project :=
  { id := i
    title := "AI Research Lab"
    description := some "An interactive platform for exploring machine learning models and data science research."
    image_url := some "https://picsum.photos/seed/lab/800/600"
    project_url := some "https://example.com/lab"
    github_url := some "https://github.com/praveen/lab"
    tags := some "AI, ML, React" }

/-- Second seeded project (`initDb` in `src/server.ts`). -/
def seedProject2 (i : Int) : Project :=
  { id := i
    title := "Data Viz Suite"
    description := some "A collection of high-performance data visualization tools built with D3.js."
    image_url := some "https://picsum.photos/seed/viz/800/600"
    project_url := some "https://example.com/viz"
    github_url := some "https://github.com/praveen/viz"
    tags := some "D3, TypeScript, SVG" }

/-- The two-row seed `INSERT INTO projects ... VALUES (...), (...)`. -/
def seedProjectRows (i : Int) : List Project :=
  [seedProject1 i, seedProject2 (i + 1)]

/-- The five store round-trips `initDb` performs inside its `try` block,
in order. -/
inductive InitStep where
  | createTables
  | countPosts
  | seedPosts
  | countProjects
  | seedProjects
deriving DecidableEq, Repr

/-- What one run of `initDb` leaves behind: the store state, whether the
scoped connection was released, whether `console.error` was reached, and
whether an error escaped `initDb` (which would crash `startServer`). -/
structure InitResult where
  db : DB
  released : Bool
  errorLogged : Bool
  errorEscaped : Bool
deriving DecidableEq, Repr

/-- The `try` block of `initDb` (`src/server.ts` lines 23–65), with a
failure oracle `ok` saying which store round-trips succeed: `CREATE TABLE
IF NOT EXISTS` for both tables (a no-op on the row model), then
count-and-conditionally-seed for `posts`, then for `projects`. There is no
transaction, so a failure leaves the effects of the steps already run and
reports the failing step. -/
def initDbTry (ok : InitStep → Bool) (db : DB) : DB × Option InitStep :=
  if !ok InitStep.createTables then (db, some InitStep.createTables)
  else if !ok InitStep.countPosts then (db, some InitStep.countPosts)
  else
    let afterPosts :=
      if db.posts.length == 0 then
        { db with posts := db.posts ++ seedPostRows db.nextPostId,
                  nextPostId := db.nextPostId + 2 }
      else db
    if db.posts.length == 0 && !ok InitStep.seedPosts then (db, some InitStep.seedPosts)
    else if !ok InitStep.countProjects then (afterPosts, some InitStep.countProjects)
    else
      let afterProjects :=
        if afterPosts.projects.length == 0 then
          { afterPosts with
              projects := afterPosts.projects ++ seedProjectRows afterPosts.nextProjectId,
              nextProjectId := afterPosts.nextProjectId + 2 }
        else afterPosts
      if afterPosts.projects.length == 0 && !ok InitStep.seedProjects then
        (afterPosts, some InitStep.seedProjects)
      else (afterProjects, none)

/-- `initDb` (`src/server.ts` lines 21–71): runs the `try` block; the
`catch` logs any error and swallows it (nothing escapes), and the
`finally` releases the scoped connection on both the success and the error
path. -/
def initDb (ok : InitStep → Bool) (db : DB) : InitResult :=
  match initDbTry ok db with
  | (db', none) =>
    { db := db', released := true, errorLogged := false, errorEscaped := false }
  | (db', some _) =>
    { db := db', released := true, errorLogged := true, errorEscaped := false }

/-- The oracle under which every store round-trip succeeds. -/
def allOk : InitStep → Bool := fun _ => true

/-- The store after `initDb` has run once against a fresh empty store with
every step succeeding. -/
def seededDB : DB := (initDb allOk emptyDB).db

/-- Outcome of `startServer` before any request is served. -/
inductive StartOutcome where
  | exited (code : Nat)
  | serving
deriving DecidableEq, Repr

/-- The configuration check at the top of `startServer` (`src/server.ts`
lines 73–77): `if (!process.env.DATABASE_URL) { console.error(...);
process.exit(1); }` — a falsy connection string (absent or empty) exits
the process with status 1 before the server is created. -/
def startServer (databaseUrl : Option String) : StartOutcome :=
  if !truthy databaseUrl then StartOutcome.exited 1 else StartOutcome.serving

/-- The module-level check in `src/api/index.ts` lines 8–10: a falsy
`DATABASE_URL` throws `Error("DATABASE_URL is not set")` at module load,
before any route is registered. -/
def apiModuleInit (databaseUrl : Option String) : Except String Unit :=
  if !truthy databaseUrl then Except.error "DATABASE_URL is not set" else Except.ok ()

/-- A posts insert carrying a NULL `type`. -/
def nullTypeInsert : PostInsert :=
  { type := none, title := "Untitled", description := none, content := none,
    tags := none, date := "Jan 1, 2026" }

/-- A posts insert carrying type `thinking`. -/
def thinkingInsert : PostInsert :=
  { type := some "thinking", title := "A note", description := none, content := none,
    tags := none, date := "Jan 2, 2026" }

/-- The store obtained by inserting `thinkingInsert` into the empty store. -/
def dbAfterThinking : DB :=
  { posts := [{ id := 1, type := some "thinking", title := "A note", description := none,
                content := none, tags := none, date := "Jan 2, 2026" }],
    projects := [], nextPostId := 2, nextProjectId := 1 }

/-! ## Helper lemmas -/

/-- Membership in the filtered, sorted result of the type query. -/
theorem mem_selectPostsByType {db : DB} {t : String} {p : Post} :
    p ∈ selectPostsByType db t ↔ p ∈ db.posts ∧ p.type = some t := by
  simp [selectPostsByType, sortPostsByIdDesc, List.mem_insertionSort, List.mem_filter]

/-- The type query result is sorted by id descending. -/
theorem sorted_selectPostsByType (db : DB) (t : String) :
    List.Sorted postIdDesc (selectPostsByType db t) :=
  List.sorted_insertionSort postIdDesc _

/-- Membership in the unfiltered, sorted posts query. -/
theorem mem_selectAllPosts {db : DB} {p : Post} :
    p ∈ selectAllPosts db ↔ p ∈ db.posts := by
  simp [selectAllPosts, sortPostsByIdDesc, List.mem_insertionSort]

/-- The unfiltered posts query result is sorted by id descending. -/
theorem sorted_selectAllPosts (db : DB) :
    List.Sorted postIdDesc (selectAllPosts db) :=
  List.sorted_insertionSort postIdDesc _

/-- If no row of `l` has id `n`, the id filter yields the empty list. -/
theorem filter_idEq_eq_nil {l : List Post} {n : Int} (h : ∀ x ∈ l, x.id ≠ n) :
    l.filter (fun q => q.id == n) = [] := by
  rw [List.filter_eq_nil_iff]
  intro a ha
  simp [h a ha]

/-- With pairwise-distinct ids, filtering on the id of a member returns
exactly that member. -/
theorem filter_idEq_eq_singleton {l : List Post} {n : Int} {p : Post}
    (hnd : (l.map Post.id).Nodup) (hmem : p ∈ l) (hid : p.id = n) :
    l.filter (fun q => q.id == n) = [p] := by
  induction l with
  | nil => cases hmem
  | cons q l ih =>
    rw [List.map_cons, List.nodup_cons] at hnd
    obtain ⟨hq, hnd'⟩ := hnd
    rcases List.mem_cons.mp hmem with rfl | hmem'
    · rw [List.filter_cons_of_pos (by simp [hid])]
      rw [filter_idEq_eq_nil]
      intro x hx hxn
      refine hq ?_
      rw [hid, ← hxn]
      exact List.mem_map_of_mem Post.id hx
    · rw [List.filter_cons_of_neg]
      · exact ih hnd' hmem'
      · simp only [beq_iff_eq]
        intro hqn
        refine hq ?_
        rw [hqn, ← hid]
        exact List.mem_map_of_mem Post.id hmem'

/-! ## Claims -/

/-- C1: for every `type` value in {`thinking`, `doing`} supplied as the
query parameter, `GET /api/posts?type=<type>` answers 200 with exactly the
rows whose `type` column equals the filter value (case-sensitive, no
partial match), ordered by `id` descending. -/
theorem listPosts_typeFilter_correct (t : String) (db : DB)
    (ht : t = "thinking" ∨ t = "doing") :
    handleGetPosts { conn := some db } (some t) =
      { status := 200, body := Body.rows (selectPostsByType db t) } ∧
    (∀ p : Post, p ∈ selectPostsByType db t ↔ p ∈ db.posts ∧ p.type = some t) ∧
    List.Sorted postIdDesc (selectPostsByType db t) := by
  refine ⟨?_, fun p => mem_selectPostsByType, sorted_selectPostsByType db t⟩
  rcases ht with h | h <;> subst h <;> rfl

/-- Witness for C1 at `type = "thinking"` on the seeded store. -/
theorem listPosts_typeFilter_correct_witness :
    ("thinking" = "thinking" ∨ "thinking" = "doing") ∧
    (handleGetPosts { conn := some seededDB } (some "thinking") =
      { status := 200, body := Body.rows (selectPostsByType seededDB "thinking") } ∧
    (∀ p : Post, p ∈ selectPostsByType seededDB "thinking" ↔
      p ∈ seededDB.posts ∧ p.type = some "thinking") ∧
    List.Sorted postIdDesc (selectPostsByType seededDB "thinking")) :=
  ⟨Or.inl rfl, listPosts_typeFilter_correct "thinking" seededDB (Or.inl rfl)⟩

/-- C9 (implicit): the list-posts handler tests the `type` parameter for
JavaScript truthiness, so `?type=` (empty string) is treated as no filter:
the response equals the unfiltered one and contains every post of both
types, ordered by `id` descending — not the empty sequence of posts whose
`type` equals the empty string. -/
theorem listPosts_emptyString_unfiltered (db : DB) :
    handleGetPosts { conn := some db } (some "") =
      handleGetPosts { conn := some db } none ∧
    handleGetPosts { conn := some db } (some "") =
      { status := 200, body := Body.rows (selectAllPosts db) } ∧
    (∀ p : Post, p ∈ selectAllPosts db ↔ p ∈ db.posts) ∧
    List.Sorted postIdDesc (selectAllPosts db) :=
  ⟨rfl, rfl, fun p => mem_selectAllPosts, sorted_selectAllPosts db⟩

/-- C3: when the store-level query fails (broken connection or malformed
parameter), each of the three read endpoints answers 500 with exactly
`{"error":"Database error"}`; and with a working store and a well-formed
id the by-id endpoint never answers 500, so the not-found case is not
conflated with a server error. -/
theorem storeFailure_500 (ty : Option String) (idStr : String) (db : DB) (n : Int)
    (hparse : pgParseInt idStr = some n) :
    handleGetPosts { conn := none } ty = { status := 500, body := Body.err "Database error" } ∧
    handleGetPostById { conn := none } idStr =
      { status := 500, body := Body.err "Database error" } ∧
    handleGetProjects { conn := none } = { status := 500, body := Body.err "Database error" } ∧
    handleGetPostById { conn := some db } "not-an-int" =
      { status := 500, body := Body.err "Database error" } ∧
    (handleGetPostById { conn := some db } idStr).status ≠ 500 := by
  refine ⟨rfl, rfl, rfl, rfl, ?_⟩
  simp only [handleGetPostById, queryPostById, hparse]
  cases db.posts.filter (fun p => p.id == n) <;> simp

/-- Witness for C3 at `idStr = "7"` on the seeded store. -/
theorem storeFailure_500_witness :
    pgParseInt "7" = some 7 ∧
    (handleGetPostById { conn := some seededDB } "7").status ≠ 500 :=
  ⟨rfl, (storeFailure_500 (some "thinking") "7" seededDB 7 rfl).2.2.2.2⟩

/-- C10 (implicit): `req.params.id` is bound to the integer `id` column
without parsing or validation, so a non-integer `:id` segment makes the
store reject the query and the response is 500 `{"error":"Database
error"}`, not 404. -/
theorem getPostById_malformedId_500 (db : DB) (idStr : String)
    (h : pgParseInt idStr = none) :
    handleGetPostById { conn := some db } idStr =
      { status := 500, body := Body.err "Database error" } ∧
    (handleGetPostById { conn := some db } idStr).status ≠ 404 := by
  simp [handleGetPostById, queryPostById, h]

/-- Witness for C10 at `:id = "abc"` on the seeded store. -/
theorem getPostById_malformedId_500_witness :
    pgParseInt "abc" = none ∧
    handleGetPostById { conn := some seededDB } "abc" =
      { status := 500, body := Body.err "Database error" } :=
  ⟨rfl, (getPostById_malformedId_500 seededDB "abc" rfl).1⟩

/-- C2: with a working store and pairwise-distinct ids, `GET /api/posts/:id`
answers 200 with exactly the matching row when one exists, and 404 with
`{"error":"Post not found"}` — never 500 — when no row has that id. -/
theorem getPostById_found_or_404 (db : DB) (idStr : String) (n : Int) (p : Post)
    (hparse : pgParseInt idStr = some n)
    (hnd : (db.posts.map Post.id).Nodup) :
    (p ∈ db.posts → p.id = n →
      handleGetPostById { conn := some db } idStr =
        { status := 200, body := Body.post p }) ∧
    ((∀ q ∈ db.posts, q.id ≠ n) →
      handleGetPostById { conn := some db } idStr =
        { status := 404, body := Body.err "Post not found" }) ∧
    ((∀ q ∈ db.posts, q.id ≠ n) →
      (handleGetPostById { conn := some db } idStr).status ≠ 500) := by
  refine ⟨?_, ?_, ?_⟩
  · intro hmem hid
    simp only [handleGetPostById, queryPostById, hparse]
    rw [filter_idEq_eq_singleton hnd hmem hid]
  · intro hnone
    simp only [handleGetPostById, queryPostById, hparse]
    rw [filter_idEq_eq_nil hnone]
  · intro hnone
    simp only [handleGetPostById, queryPostById, hparse]
    rw [filter_idEq_eq_nil hnone]
    simp

/-- Witness for C2: the seeded store answers 200 for id 2 and 404 for
id 9999. -/
theorem getPostById_found_or_404_witness :
    handleGetPostById { conn := some seededDB } "2" =
      { status := 200, body := Body.post (seedPost2 2) } ∧
    handleGetPostById { conn := some seededDB } "9999" =
      { status := 404, body := Body.err "Post not found" } := by
  have hposts : seededDB.posts = [seedPost1 1, seedPost2 2] := rfl
  have hnd : (seededDB.posts.map Post.id).Nodup := by
    rw [show seededDB.posts.map Post.id = [1, 2] from rfl]
    decide
  constructor
  · refine (getPostById_found_or_404 seededDB "2" 2 (seedPost2 2) rfl hnd).1 ?_ rfl
    rw [hposts]
    exact List.mem_cons_of_mem _ (List.mem_cons_self _ _)
  · refine (getPostById_found_or_404 seededDB "9999" 9999 (seedPost2 2) rfl hnd).2.1 ?_
    rw [hposts]
    decide

/-- C4: the schema initializer is idempotent with respect to seeding — run
against a store whose `posts` and `projects` tables are already populated
it inserts no rows, leaving both tables (and hence their row counts)
unchanged. -/
theorem initDb_idempotent (db : DB)
    (hp : db.posts ≠ []) (hq : db.projects ≠ []) :
    (initDb allOk db).db = db ∧
    (initDb allOk db).db.posts.length = db.posts.length ∧
    (initDb allOk db).db.projects.length = db.projects.length := by
  have h1 : (db.posts.length == 0) = false := by
    simp [beq_eq_false_iff_ne, List.length_eq_zero, hp]
  have h2 : (db.projects.length == 0) = false := by
    simp [beq_eq_false_iff_ne, List.length_eq_zero, hq]
  have hrun : initDbTry allOk db = (db, none) := by
    simp [initDbTry, allOk, h1, h2]
  simp [initDb, hrun]

/-- Witness for C4: a second run of the initializer on the seeded store
(the result of the first run against a fresh store) changes nothing. -/
theorem initDb_idempotent_witness :
    seededDB.posts ≠ [] ∧ seededDB.projects ≠ [] ∧
    (initDb allOk seededDB).db = seededDB :=
  ⟨by decide, by decide, (initDb_idempotent seededDB (by decide) (by decide)).1⟩

/-- C5: after the initializer runs against a fresh empty store,
`GET /api/posts` answers 200 with exactly the two seeded rows — the
`doing` post (id 2, inserted last) first, then the `thinking` post
(id 1) — bearing the seeded titles. -/
theorem freshStore_seed_listPosts :
    seededDB.posts = [seedPost1 1, seedPost2 2] ∧
    handleGetPosts { conn := some seededDB } none =
      { status := 200, body := Body.rows [seedPost2 2, seedPost1 1] } ∧
    (seedPost2 2).id = 2 ∧ (seedPost2 2).type = some "doing" ∧
    (seedPost2 2).title = "Why I'm Building This Notes Section" ∧
    (seedPost1 1).id = 1 ∧ (seedPost1 1).type = some "thinking" ∧
    (seedPost1 1).title = "All I Need Is a Renaissance, Summer, and Success" := by
  refine ⟨rfl, ?_, rfl, rfl, rfl, rfl, rfl, rfl⟩
  rfl

/-- C6: with `DATABASE_URL` absent, `startServer` exits the process with
the non-zero status 1 before serving, and the API module throws at load
time. -/
theorem missingDatabaseUrl_fatal :
    startServer none = StartOutcome.exited 1 ∧
    startServer none ≠ StartOutcome.serving ∧
    (1 : Nat) ≠ 0 ∧
    apiModuleInit none = Except.error "DATABASE_URL is not set" := by
  refine ⟨rfl, by decide, by decide, rfl⟩

/-- C7 counterexample: the `CHECK(type IN ('thinking','doing'))` constraint
follows SQL three-valued logic, so an insert whose `type` is NULL — a
value outside {`thinking`, `doing`} — is accepted and persisted, refuting
the claim that every insert is rejected unless `type` is one of the two
enumerated values. -/
theorem insertPost_nullType_accepted :
    insertPost emptyDB nullTypeInsert =
      Except.ok
        { posts := [{ id := 1, type := none, title := "Untitled", description := none,
                      content := none, tags := none, date := "Jan 1, 2026" }],
          projects := [], nextPostId := 2, nextProjectId := 1 } ∧
    (none : Option String) ≠ some "thinking" ∧
    (none : Option String) ≠ some "doing" := by
  refine ⟨rfl, by decide, by decide⟩

/-- C7 (amended): an insert into `posts` succeeds iff its `type` is NULL or
one of the two enumerated values (a NULL satisfies the `CHECK`
constraint), and inserts preserve the invariant that every persisted row's
`type` satisfies the constraint — so no persisted row ever carries a
non-NULL `type` outside {`thinking`, `doing`}. -/
theorem insertPost_typeConstraint (db : DB) (r : PostInsert) :
    ((∃ db', insertPost db r = Except.ok db') ↔
      (r.type = none ∨ r.type = some "thinking" ∨ r.type = some "doing")) ∧
    (∀ db', insertPost db r = Except.ok db' →
      (∀ p ∈ db.posts, typeCheckOk p.type = true) →
      ∀ p ∈ db'.posts, typeCheckOk p.type = true) := by
  have hiff : typeCheckOk r.type = true ↔
      (r.type = none ∨ r.type = some "thinking" ∨ r.type = some "doing") := by
    cases h : r.type with
    | none => simp [typeCheckOk]
    | some v => simp [typeCheckOk]
  constructor
  · constructor
    · rintro ⟨db', hdb⟩
      by_cases hc : typeCheckOk r.type = true
      · exact hiff.mp hc
      · simp [insertPost, hc] at hdb
    · intro h
      have hc : typeCheckOk r.type = true := hiff.mpr h
      refine ⟨{ db with
          posts := db.posts ++
            [{ id := db.nextPostId, type := r.type, title := r.title,
               description := r.description, content := r.content,
               tags := r.tags, date := r.date }],
          nextPostId := db.nextPostId + 1 }, ?_⟩
      simp [insertPost, hc]
  · rintro db' hdb hall p hp
    by_cases hc : typeCheckOk r.type = true
    · simp only [insertPost, hc, if_pos, Except.ok.injEq] at hdb
      subst hdb
      rcases List.mem_append.mp hp with h1 | h1
      · exact hall p h1
      · rw [List.mem_singleton.mp h1]
        exact hc
    · simp [insertPost, hc] at hdb

/-- Witness for the amended C7: a `thinking` insert into the empty store
succeeds, and the resulting store satisfies the type invariant. -/
theorem insertPost_typeConstraint_witness :
    (∃ db', insertPost emptyDB thinkingInsert = Except.ok db') ∧
    (∀ p ∈ dbAfterThinking.posts, typeCheckOk p.type = true) := by
  have h := insertPost_typeConstraint emptyDB thinkingInsert
  refine ⟨h.1.mpr (Or.inr (Or.inl rfl)), h.2 dbAfterThinking rfl ?_⟩
  intro p hp
  simp [emptyDB] at hp

/-- C8: whichever store round-trips fail, one run of the schema
initializer releases the scoped connection, lets no error escape to halt
the process, and reaches the error log exactly when some step failed. -/
theorem initDb_releases_connection (ok : InitStep → Bool) (db : DB) :
    (initDb ok db).released = true ∧
    (initDb ok db).errorEscaped = false ∧
    (initDb ok db).errorLogged = (initDbTry ok db).2.isSome := by
  rcases h : initDbTry ok db with ⟨db', e⟩
  cases e <;> simp [initDb, h]
